import Mathlib

/-!
A shallow embedding of `src/jira-client.js`: a thin Jira Cloud REST client
built on top of axios. Each client method is embedded as a pure function
from its (optional, destructured) options object to the list of HTTP
requests it issues and the outcome of the call. The HTTP transport is
abstracted as a function `Request → Except E Response`, standing for the
configured axios instance: axios resolves with a response object whose
`data` field is the parsed JSON body, and rejects (with an error of the
transport's own type `E`) on network failures and non-2xx statuses.
-/

namespace JiraClient

/-- JavaScript values as far as this client observes them: the parsed JSON
response bodies, query-parameter values and request bodies, plus
JavaScript's `undefined`. -/
inductive JValue where
  | undef
  | str (s : String)
  | num (n : Int)
  | boolean (b : Bool)
  | arr (elems : List JValue)
  | obj (members : List (String × JValue))

/-- JavaScript property access `v.name` as used on parsed response bodies:
the member's value when `v` is an object that has it, `undefined` otherwise. -/
def JValue.getField : JValue → String → JValue
  | .obj members, name =>
    match members.lookup name with
    | some v => v
    | none => .undef
  | _, _ => .undef

inductive HttpMethod where
  | GET
  | POST
deriving DecidableEq

/-- An HTTP request as handed to the transport: method, path relative to the
configured base URL, the query parameters axios will serialise, and the JSON
body for POST requests. -/
structure Request where
  method : HttpMethod
  path : String
  params : List (String × JValue)
  body : Option JValue

/-- The per-request axios config object. Axios serialises the `params` key
into the query string; any other key that axios does not recognise is
silently ignored and contributes nothing to the request that goes out. -/
structure AxiosConfig where
  params : Option (List (String × JValue)) := none
  unrecognised : List (String × JValue) := []

/-- The call `axiosInstance.get(path, config)` builds a GET request whose query
parameters come from `config.params` (none when absent); unrecognised config
keys are dropped. -/
def axiosGet (path : String) (config : AxiosConfig) : Request :=
  { method := .GET, path := path, params := config.params.getD [], body := none }

/-- The call `axiosInstance.post(path, data)` builds a POST request with JSON body
`data` and no query parameters. -/
def axiosPost (path : String) (body : JValue) : Request :=
  { method := .POST, path := path, params := [], body := some body }

/-- An axios success response; `data` is the parsed JSON body. -/
structure Response where
  data : JValue

/-- Errors raised by the JavaScript language itself, before any request is
issued (destructuring `undefined` throws `TypeError`). -/
inductive JsError where
  | typeError
deriving DecidableEq

/-- The outcome of awaiting one client method call: a `TypeError` raised
before any request went out, a rejection carrying the transport's error
unchanged, or resolution with a JavaScript value. -/
inductive Outcome (E : Type) where
  | thrown (e : JsError)
  | rejected (e : E)
  | resolved (v : JValue)

/-- The pattern `const response = await this.baseClient.verb(...)` followed by a
`return` of some projection of `response.data`: a transport rejection
propagates unchanged, a success resolves with the extracted value. -/
def sendAndExtract {E : Type} (send : Request → Except E Response)
    (req : Request) (extract : JValue → JValue) : Outcome E :=
  match send req with
  | .error e => .rejected e
  | .ok resp => .resolved (extract resp.data)

/-- HTTP basic-authentication credentials of the axios instance. -/
structure Auth where
  username : String
  password : String
deriving DecidableEq

/-- The configuration the constructor hands to `axios.create`. -/
structure AxiosInstanceConfig where
  baseURL : String
  auth : Auth
deriving DecidableEq

/-- The options object accepted by `new Jira({...})`; `version` is the
JSDoc-documented optional api version (absent ↦ `none`). -/
structure JiraOptions where
  host : String
  user : String
  token : String
  version : Option Nat := none

/-- The state of a constructed `Jira` instance: its two fields `version`
and `baseClient` (the latter embedded as the axios instance's config). -/
structure Jira where
  version : Nat
  baseClient : AxiosInstanceConfig
deriving DecidableEq

/-- The constructor `constructor({ host, user, token, version = 3 })`. -/
def Jira.construct (o : JiraOptions) : Jira :=
  let version := o.version.getD 3
  let host := o.host
  { version := version,
    baseClient :=
      { baseURL := s!"https://{host}.atlassian.net/rest/api/{version}",
        auth := { username := o.user, password := o.token } } }

/-- Options destructured by `projects({ categoryId = 1000 })`. -/
structure ProjectsOptions where
  categoryId : Option Int := none

/-- Options destructured by `project({ projectKey })`. -/
structure ProjectOptions where
  projectKey : String

/-- Options destructured by `search({ jql, fields = [...] })`. -/
structure SearchOptions where
  jql : String
  fieldList : Option (List String) := none

/-- Options destructured by `projectRoles({ projectKey, role })`. -/
structure ProjectRolesOptions where
  projectKey : String
  role : String

/-- Options destructured by `usersByGroup({ groupname })`. -/
structure UsersByGroupOptions where
  groupname : String

/-- Method `projects({ categoryId = 1000 })`: GET `project/search` with
params `{categoryId, maxResults}`, returning `response.data.values`.
Calling it without an argument destructures `undefined`: a `TypeError`,
no request. -/
def Jira.projects {E : Type} (send : Request → Except E Response) :
    Option ProjectsOptions → List Request × Outcome E
  | none => ([], .thrown .typeError)
  | some o =>
    let categoryId := o.categoryId.getD 1000
    let maxResults : Int := 200
    let req := axiosGet "project/search"
      { params := some [("categoryId", .num categoryId), ("maxResults", .num maxResults)] }
    ([req], sendAndExtract send req (fun d => d.getField "values"))

/-- Method `project({ projectKey })`: GET `project/{projectKey}` passing
`{ expand: 'issueTypes,lead,description' }` as the axios config — a key
axios does not recognise (it is not under `params`), so it is dropped and
the request carries no query parameters; returns `response.data`. -/
def Jira.project {E : Type} (send : Request → Except E Response) :
    Option ProjectOptions → List Request × Outcome E
  | none => ([], .thrown .typeError)
  | some o =>
    let projectKey := o.projectKey
    let req := axiosGet s!"project/{projectKey}"
      { unrecognised := [("expand", .str "issueTypes,lead,description")] }
    ([req], sendAndExtract send req (fun d => d))

/-- Method `search({ jql, fields = ['summary','status','assignee','timetracking'] })`:
POST `search` with JSON body `{jql, maxResults: 100, fields}`, returning
`response.data.issues`. -/
def Jira.search {E : Type} (send : Request → Except E Response) :
    Option SearchOptions → List Request × Outcome E
  | none => ([], .thrown .typeError)
  | some o =>
    let jql := o.jql
    let fieldList := o.fieldList.getD ["summary", "status", "assignee", "timetracking"]
    let req := axiosPost "search"
      (.obj [("jql", .str jql), ("maxResults", .num 100),
             ("fields", .arr (fieldList.map JValue.str))])
    ([req], sendAndExtract send req (fun d => d.getField "issues"))

/-- Method `projectRoles({ projectKey, role })`: GET
`project/{projectKey}/role/{role}` with no config argument at all,
returning `response.data.actors`. -/
def Jira.projectRoles {E : Type} (send : Request → Except E Response) :
    Option ProjectRolesOptions → List Request × Outcome E
  | none => ([], .thrown .typeError)
  | some o =>
    let projectKey := o.projectKey
    let role := o.role
    let req := axiosGet s!"project/{projectKey}/role/{role}" {}
    ([req], sendAndExtract send req (fun d => d.getField "actors"))

/-- Method `usersByGroup({ groupname })`: GET `group/member` with params
`{groupname, maxResults: 200, includeInactiveUsers: true}`, returning
`response.data.values`. -/
def Jira.usersByGroup {E : Type} (send : Request → Except E Response) :
    Option UsersByGroupOptions → List Request × Outcome E
  | none => ([], .thrown .typeError)
  | some o =>
    let groupname := o.groupname
    let req := axiosGet "group/member"
      { params := some [("groupname", .str groupname), ("maxResults", .num 200),
                        ("includeInactiveUsers", .boolean true)] }
    ([req], sendAndExtract send req (fun d => d.getField "values"))

/-- Method `categories()`: GET `projectCategory`; the response is awaited
but never returned, so the call resolves with `undefined`. -/
def Jira.categories {E : Type} (send : Request → Except E Response) :
    List Request × Outcome E :=
  let req := axiosGet "projectCategory" {}
  ([req], sendAndExtract send req (fun _ => .undef))

/-- One invocation of a client method, carrying the argument as the caller
supplied it (`none` = called with no argument; `categories` takes none). -/
inductive MethodCall where
  | projects (arg : Option ProjectsOptions)
  | project (arg : Option ProjectOptions)
  | search (arg : Option SearchOptions)
  | projectRoles (arg : Option ProjectRolesOptions)
  | usersByGroup (arg : Option UsersByGroupOptions)
  | categories

/-- Whether the invocation supplied the options argument the method
destructures (`categories` destructures nothing, so it always counts). -/
def MethodCall.argProvided : MethodCall → Bool
  | .projects arg => arg.isSome
  | .project arg => arg.isSome
  | .search arg => arg.isSome
  | .projectRoles arg => arg.isSome
  | .usersByGroup arg => arg.isSome
  | .categories => true

/-- What one method call leaves behind: the instance afterwards, the
requests issued, and the awaited outcome. -/
structure CallResult (E : Type) where
  client : Jira
  requests : List Request
  outcome : Outcome E

/-- Dispatch of one method call on an instance `j`. No method body assigns
to `this`, so the instance after the call is `j` itself. -/
def Jira.call {E : Type} (j : Jira) (send : Request → Except E Response) :
    MethodCall → CallResult E
  | .projects arg => let r := Jira.projects send arg; ⟨j, r.1, r.2⟩
  | .project arg => let r := Jira.project send arg; ⟨j, r.1, r.2⟩
  | .search arg => let r := Jira.search send arg; ⟨j, r.1, r.2⟩
  | .projectRoles arg => let r := Jira.projectRoles send arg; ⟨j, r.1, r.2⟩
  | .usersByGroup arg => let r := Jira.usersByGroup send arg; ⟨j, r.1, r.2⟩
  | .categories => let r := Jira.categories send; ⟨j, r.1, r.2⟩

/-! Concrete transports and data used by the closed witnesses. -/

/-- A concrete response body exhibiting the fields the methods extract. -/
def stubBody : JValue :=
  .obj [("values", .arr [.str "v0"]), ("issues", .arr [.str "i0"]),
        ("actors", .arr [.str "a0"])]

/-- A transport that answers every request with `stubBody`. -/
def stubSend : Request → Except Unit Response := fun _ => .ok ⟨stubBody⟩

/-- A transport that fails every request with error `7`. -/
def failSend : Request → Except Nat Response := fun _ => .error 7

/-- A concrete constructed instance. -/
def jiraW : Jira := Jira.construct { host := "acme", user := "u", token := "t" }

/-! Two facts about `sendAndExtract`, shared by the claim proofs. -/

/-- A successful transport answer resolves with the extracted value. -/
theorem sendAndExtract_ok {E : Type} (send : Request → Except E Response)
    (req : Request) (extract : JValue → JValue) (resp : Response)
    (h : send req = .ok resp) :
    sendAndExtract send req extract = Outcome.resolved (extract resp.data) := by
  unfold sendAndExtract
  rw [h]

/-- When the transport fails the issued request, the call rejects with the
transport's error unchanged. -/
theorem sendAndExtract_singleton_error {E : Type} (send : Request → Except E Response)
    (r0 : Request) (extract : JValue → JValue) (req : Request) (e : E)
    (hreq : [r0] = [req]) (herr : send req = .error e) :
    sendAndExtract send r0 extract = Outcome.rejected e := by
  injection hreq with h1 h2
  subst h1
  unfold sendAndExtract
  rw [herr]

/-! The claims. -/

/-- C1 (code bug, evaluated at the failing input): `project({projectKey:
"TEST"})` issues its GET to `project/TEST` with an EMPTY query-parameter
list — the `expand` config key is not under `params`, so axios drops it and
no `expand=issueTypes,lead,description` query parameter is ever sent; the
call still resolves with the full response body `response.data`. -/
theorem project_request_has_no_query_params :
    (Jira.project stubSend (some { projectKey := "TEST" })).1
        = [{ method := .GET, path := "project/TEST", params := [], body := none }]
    ∧ (Jira.project stubSend (some { projectKey := "TEST" })).2
        = Outcome.resolved stubBody :=
  ⟨rfl, rfl⟩

/-- C2: `categories()` issues exactly one GET to `projectCategory`, and on
any successful response it resolves with `undefined`: the parsed body is
discarded. -/
theorem categories_spec {E : Type} (send : Request → Except E Response) :
    (Jira.categories send).1
        = [{ method := .GET, path := "projectCategory", params := [], body := none }]
    ∧ ∀ resp : Response,
        send { method := .GET, path := "projectCategory", params := [], body := none }
            = .ok resp →
        (Jira.categories send).2 = Outcome.resolved .undef := by
  refine ⟨rfl, fun resp h => ?_⟩
  exact sendAndExtract_ok send _ (fun _ => JValue.undef) resp h

theorem categories_spec_witness :
    (Jira.categories stubSend).2 = Outcome.resolved .undef :=
  (categories_spec stubSend).2 ⟨stubBody⟩ rfl

/-- C3: construction from `host`, `user`, `token` and optional `version`
(default 3) configures the base client with base URL
`https://{host}.atlassian.net/rest/api/{version}` and basic auth
`username = user`, `password = token`, for every choice of inputs. -/
theorem construct_spec (host user token : String) (version : Option Nat) :
    (Jira.construct ⟨host, user, token, version⟩).baseClient.baseURL
        = "https://" ++ host ++ ".atlassian.net/rest/api/" ++ toString (version.getD 3)
    ∧ (Jira.construct ⟨host, user, token, version⟩).baseClient.auth = ⟨user, token⟩
    ∧ (Jira.construct ⟨host, user, token, version⟩).version = version.getD 3
    ∧ (Jira.construct ⟨host, user, token, none⟩).version = 3 := by
  refine ⟨?_, rfl, rfl, rfl⟩
  show "https://" ++ toString host ++ ".atlassian.net/rest/api/"
      ++ toString (version.getD 3) ++ ""
      = "https://" ++ host ++ ".atlassian.net/rest/api/" ++ toString (version.getD 3)
  simp [toString]

/-- C4: `projects({categoryId})` (default 1000 when the property is absent)
issues one GET to `project/search` with exactly the query parameters
`categoryId` and `maxResults = 200`, and on success resolves with the
`values` field of the response body. -/
theorem projects_spec {E : Type} (send : Request → Except E Response)
    (o : ProjectsOptions) :
    (Jira.projects send (some o)).1
        = [{ method := .GET, path := "project/search",
             params := [("categoryId", JValue.num (o.categoryId.getD 1000)),
                        ("maxResults", JValue.num 200)], body := none }]
    ∧ ∀ resp : Response,
        send { method := .GET, path := "project/search",
               params := [("categoryId", JValue.num (o.categoryId.getD 1000)),
                          ("maxResults", JValue.num 200)], body := none } = .ok resp →
        (Jira.projects send (some o)).2
            = Outcome.resolved (resp.data.getField "values") := by
  refine ⟨rfl, fun resp h => ?_⟩
  exact sendAndExtract_ok send _ (fun d => d.getField "values") resp h

theorem projects_spec_witness :
    (Jira.projects stubSend (some {})).2
        = Outcome.resolved ((Response.mk stubBody).data.getField "values") :=
  (projects_spec stubSend {}).2 ⟨stubBody⟩ rfl

/-- C5: `search({jql, fields})` (fields defaulting to
`['summary','status','assignee','timetracking']` when absent) issues one
POST to `search` whose JSON body is exactly `{jql, maxResults: 100,
fields}`, and on success resolves with the `issues` field of the response
body. -/
theorem search_spec {E : Type} (send : Request → Except E Response)
    (o : SearchOptions) :
    (Jira.search send (some o)).1
        = [{ method := .POST, path := "search", params := [],
             body := some (.obj
               [("jql", JValue.str o.jql), ("maxResults", JValue.num 100),
                ("fields", JValue.arr (((o.fieldList.getD
                  ["summary", "status", "assignee", "timetracking"]).map
                    JValue.str)))]) }]
    ∧ ∀ resp : Response,
        send { method := .POST, path := "search", params := [],
               body := some (.obj
                 [("jql", JValue.str o.jql), ("maxResults", JValue.num 100),
                  ("fields", JValue.arr (((o.fieldList.getD
                    ["summary", "status", "assignee", "timetracking"]).map
                      JValue.str)))]) } = .ok resp →
        (Jira.search send (some o)).2
            = Outcome.resolved (resp.data.getField "issues") := by
  refine ⟨rfl, fun resp h => ?_⟩
  exact sendAndExtract_ok send _ (fun d => d.getField "issues") resp h

theorem search_spec_witness :
    (Jira.search stubSend (some { jql := "project = T" })).2
        = Outcome.resolved ((Response.mk stubBody).data.getField "issues") :=
  (search_spec stubSend { jql := "project = T" }).2 ⟨stubBody⟩ rfl

/-- C6: `projectRoles({projectKey, role})` issues one GET to
`project/{projectKey}/role/{role}` with no query parameters, and on
success resolves with the `actors` field of the response body. -/
theorem projectRoles_spec {E : Type} (send : Request → Except E Response)
    (projectKey role : String) :
    (Jira.projectRoles send (some ⟨projectKey, role⟩)).1
        = [{ method := .GET, path := s!"project/{projectKey}/role/{role}",
             params := [], body := none }]
    ∧ ∀ resp : Response,
        send { method := .GET, path := s!"project/{projectKey}/role/{role}",
               params := [], body := none } = .ok resp →
        (Jira.projectRoles send (some ⟨projectKey, role⟩)).2
            = Outcome.resolved (resp.data.getField "actors") := by
  refine ⟨rfl, fun resp h => ?_⟩
  exact sendAndExtract_ok send _ (fun d => d.getField "actors") resp h

theorem projectRoles_spec_witness :
    (Jira.projectRoles stubSend (some ⟨"TEST", "admin"⟩)).2
        = Outcome.resolved ((Response.mk stubBody).data.getField "actors") :=
  (projectRoles_spec stubSend "TEST" "admin").2 ⟨stubBody⟩ rfl

/-- C7: `usersByGroup({groupname})` issues one GET to `group/member` with
exactly the query parameters `groupname`, `maxResults = 200` and
`includeInactiveUsers = true`, and on success resolves with the `values`
field of the response body. -/
theorem usersByGroup_spec {E : Type} (send : Request → Except E Response)
    (groupname : String) :
    (Jira.usersByGroup send (some ⟨groupname⟩)).1
        = [{ method := .GET, path := "group/member",
             params := [("groupname", JValue.str groupname),
                        ("maxResults", JValue.num 200),
                        ("includeInactiveUsers", JValue.boolean true)],
             body := none }]
    ∧ ∀ resp : Response,
        send { method := .GET, path := "group/member",
               params := [("groupname", JValue.str groupname),
                          ("maxResults", JValue.num 200),
                          ("includeInactiveUsers", JValue.boolean true)],
               body := none } = .ok resp →
        (Jira.usersByGroup send (some ⟨groupname⟩)).2
            = Outcome.resolved (resp.data.getField "values") := by
  refine ⟨rfl, fun resp h => ?_⟩
  exact sendAndExtract_ok send _ (fun d => d.getField "values") resp h

theorem usersByGroup_spec_witness :
    (Jira.usersByGroup stubSend (some ⟨"devs"⟩)).2
        = Outcome.resolved ((Response.mk stubBody).data.getField "values") :=
  (usersByGroup_spec stubSend "devs").2 ⟨stubBody⟩ rfl

/-- C8: whichever method is called with whatever argument, if the transport
fails the single issued request with error `e`, the call rejects with that
very error `e`, untouched. -/
theorem http_error_propagates {E : Type} (j : Jira)
    (send : Request → Except E Response) (m : MethodCall) (req : Request) (e : E)
    (hreq : (Jira.call j send m).requests = [req]) (herr : send req = .error e) :
    (Jira.call j send m).outcome = Outcome.rejected e := by
  cases m with
  | projects arg =>
    cases arg with
    | none => exact List.noConfusion (show ([] : List Request) = [req] from hreq)
    | some o =>
      exact sendAndExtract_singleton_error send _ (fun d => d.getField "values") req e hreq herr
  | project arg =>
    cases arg with
    | none => exact List.noConfusion (show ([] : List Request) = [req] from hreq)
    | some o =>
      exact sendAndExtract_singleton_error send _ (fun d => d) req e hreq herr
  | search arg =>
    cases arg with
    | none => exact List.noConfusion (show ([] : List Request) = [req] from hreq)
    | some o =>
      exact sendAndExtract_singleton_error send _ (fun d => d.getField "issues") req e hreq herr
  | projectRoles arg =>
    cases arg with
    | none => exact List.noConfusion (show ([] : List Request) = [req] from hreq)
    | some o =>
      exact sendAndExtract_singleton_error send _ (fun d => d.getField "actors") req e hreq herr
  | usersByGroup arg =>
    cases arg with
    | none => exact List.noConfusion (show ([] : List Request) = [req] from hreq)
    | some o =>
      exact sendAndExtract_singleton_error send _ (fun d => d.getField "values") req e hreq herr
  | categories =>
    exact sendAndExtract_singleton_error send _ (fun _ => JValue.undef) req e hreq herr

theorem http_error_propagates_witness :
    (Jira.call jiraW failSend MethodCall.categories).outcome = Outcome.rejected 7 :=
  http_error_propagates jiraW failSend MethodCall.categories
    { method := .GET, path := "projectCategory", params := [], body := none } 7 rfl rfl

/-- C9: every method call leaves the instance exactly as it was — its
`version` and `baseClient` fields are unchanged — and every call whose
options argument was supplied issues exactly one HTTP request. -/
theorem call_preserves_client {E : Type} (j : Jira)
    (send : Request → Except E Response) (m : MethodCall) :
    (Jira.call j send m).client.version = j.version
    ∧ (Jira.call j send m).client.baseClient = j.baseClient
    ∧ (m.argProvided = true → (Jira.call j send m).requests.length = 1) := by
  refine ⟨?_, ?_, ?_⟩
  · cases m <;> rfl
  · cases m <;> rfl
  · intro h
    cases m with
    | projects arg => cases arg with
      | none => exact absurd (show false = true from h) (by decide)
      | some o => rfl
    | project arg => cases arg with
      | none => exact absurd (show false = true from h) (by decide)
      | some o => rfl
    | search arg => cases arg with
      | none => exact absurd (show false = true from h) (by decide)
      | some o => rfl
    | projectRoles arg => cases arg with
      | none => exact absurd (show false = true from h) (by decide)
      | some o => rfl
    | usersByGroup arg => cases arg with
      | none => exact absurd (show false = true from h) (by decide)
      | some o => rfl
    | categories => rfl

theorem call_preserves_client_witness :
    (Jira.call jiraW stubSend (MethodCall.projects (some {}))).requests.length = 1 :=
  (call_preserves_client jiraW stubSend (MethodCall.projects (some {}))).2.2 rfl

/-- C10: calling `projects`, `project`, `search`, `projectRoles` or
`usersByGroup` with no argument at all fails with a `TypeError` with no
request issued; `categories`, which destructures nothing, never does — its
outcome is always a rejection or a resolution. -/
theorem no_argument_throws {E : Type} (j : Jira)
    (send : Request → Except E Response) :
    (Jira.call j send (.projects none)).outcome = Outcome.thrown .typeError
    ∧ (Jira.call j send (.projects none)).requests = []
    ∧ (Jira.call j send (.project none)).outcome = Outcome.thrown .typeError
    ∧ (Jira.call j send (.project none)).requests = []
    ∧ (Jira.call j send (.search none)).outcome = Outcome.thrown .typeError
    ∧ (Jira.call j send (.search none)).requests = []
    ∧ (Jira.call j send (.projectRoles none)).outcome = Outcome.thrown .typeError
    ∧ (Jira.call j send (.projectRoles none)).requests = []
    ∧ (Jira.call j send (.usersByGroup none)).outcome = Outcome.thrown .typeError
    ∧ (Jira.call j send (.usersByGroup none)).requests = []
    ∧ ((∃ e, (Jira.call j send .categories).outcome = Outcome.rejected e)
        ∨ (∃ v, (Jira.call j send .categories).outcome = Outcome.resolved v)) := by
  refine ⟨rfl, rfl, rfl, rfl, rfl, rfl, rfl, rfl, rfl, rfl, ?_⟩
  show (∃ e, sendAndExtract send (axiosGet "projectCategory" {}) (fun _ => .undef)
        = Outcome.rejected e)
      ∨ (∃ v, sendAndExtract send (axiosGet "projectCategory" {}) (fun _ => .undef)
        = Outcome.resolved v)
  unfold sendAndExtract
  cases send (axiosGet "projectCategory" {}) with
  | error e => exact Or.inl ⟨e, rfl⟩
  | ok resp => exact Or.inr ⟨.undef, rfl⟩

end JiraClient
